import Mathlib

/-!
# dolfin/io/HDF5Interface.cpp

A shallow embedding of the `HDF5Interface` wrapper functions of DOLFIN together
with a small executable model of the storage engine they call (the HDF5 C
library): files, a handle table, link resolution and the automatic
error-reporting setting.  The wrapper functions are transcribed statement by
statement; every engine call and every `dolfin_assert` of the source appears in
the same order, the assertions tagged with their source line.

Modelling conventions:
* a `std::string` or C string is a `String` whose characters stand for its bytes,
  so `String.length` is the byte length;
* an engine identifier (`hid_t`) and an engine status (`herr_t`, `htri_t`, `int`) is
  an `Int`, an `hsize_t` a `Nat`, and the conversions to `dolfin::uint` are explicit;
* a computation returns its result or a fatal error together with the engine state
  it reached, so that what a failed call leaves behind can be stated;
* a local variable the source leaves uninitialised (`namebuf`, `num_datasets`,
  `group_info`) starts as the empty buffer or `0`; the source reads it only after
  the engine call that fills it;
* the two overloads of `dataset_list` are `dataset_list` (identifier) and
  `dataset_list_file` (file name).
-/

namespace HDF5Interface

/-! ## Constants of the source -/

/-- Source line 31: the failure value of engine calls. -/
def HDF5_FAIL : Int := -1

/-- Source line 32: the size of the name buffer used by both `dataset_list` overloads. -/
def HDF5_MAXSTRLEN : Nat := 80

/-- Width of `dolfin::uint` (`unsigned int`, declared in dolfin/common/types.h). -/
def UINT_BITS : Nat := 32

/-- Conversion of an unsigned 64-bit engine value (`hsize_t`) to `dolfin::uint`. -/
def to_uint (x : Nat) : Nat := x % 2 ^ UINT_BITS

/-- Conversion of a signed engine value (`int`) to `dolfin::uint`. -/
def int_to_uint (x : Int) : Nat := (x % (2 ^ UINT_BITS : Int)).toNat

/-- The engine's maximum dataspace rank (`H5S_MAX_RANK`). -/
def H5S_MAX_RANK : Nat := 32

/-! ## Engine data model -/

/-- An object stored in a container: a group, or a dataset with its shape. -/
inductive Obj where
  | group
  | dataset (dims : List Nat)
  deriving DecidableEq, Repr

/-- A container file: the links of its hierarchy, each keyed by the absolute path
(list of components) of the object it names.  The root group `[]` is implicit. -/
structure Container where
  links : List (List String × Obj)
  deriving DecidableEq, Repr

/-- Property-list classes used by the source. -/
inductive PropClass where
  | H5P_FILE_ACCESS
  | H5P_LINK_ACCESS
  deriving DecidableEq, Repr

/-- What an open engine identifier (`hid_t`) refers to. -/
inductive Resource where
  | plist (cls : PropClass) (mpio : Bool)
  | file (name : String)
  | group (file : String) (path : List String)
  | dataset (dims : List Nat)
  | dataspace (dims : List Nat)
  deriving DecidableEq, Repr

/-- The automatic error-reporting setting: a handler function pointer and its
client data pointer; `0` stands for `NULL` (reporting disabled). -/
structure ErrAuto where
  func : Nat
  client_data : Nat
  deriving DecidableEq, Repr

/-- The engine state: the container files on disk, the table of open identifiers
(most recently opened first), the identifier counter and the error-reporting
setting. -/
structure Engine where
  files : List (String × Container)
  handles : List (Int × Resource)
  nextId : Nat
  errAuto : ErrAuto
  deriving DecidableEq, Repr

/-- First value bound to key `k` in an association list. -/
def assoc {κ β : Type} [DecidableEq κ] (k : κ) : List (κ × β) → Option β
  | [] => none
  | e :: es => if e.1 = k then some e.2 else assoc k es

/-- Remove the first entry with key `k` from an association list. -/
def unbind {κ β : Type} [DecidableEq κ] (k : κ) : List (κ × β) → List (κ × β)
  | [] => []
  | e :: es => if e.1 = k then es else e :: unbind k es

/-- Replace the value of the first entry with key `k`. -/
def rebind {κ β : Type} [DecidableEq κ] (k : κ) (v : β) : List (κ × β) → List (κ × β)
  | [] => []
  | e :: es => if e.1 = k then (e.1, v) :: es else e :: rebind k v es

/-- Split a C string at `/`, dropping empty components. -/
def splitSlash : List Char → List Char → List String
  | [], cur => if cur = [] then [] else [String.mk cur]
  | c :: cs, cur =>
    if c = '/' then
      (if cur = [] then splitSlash cs [] else String.mk cur :: splitSlash cs [])
    else splitSlash cs (cur ++ [c])

/-- The components of a path name; `.` names the current group and is skipped. -/
def pathComponents (name : String) : List String :=
  (splitSlash name.data []).filter (fun c => c ≠ ".")

/-- The link stored under the absolute path `p`. -/
def Container.link? (c : Container) (p : List String) : Option Obj :=
  assoc p c.links

/-- Walk `rest` downwards from the object `cur` found at `pre`: each step needs the
current object to be a group holding a link of the next name. -/
def Container.resolveFrom (c : Container) : Obj → List String → List String → Option Obj
  | cur, _, [] => some cur
  | .group, pre, x :: xs =>
    match c.link? (pre ++ [x]) with
    | some o => c.resolveFrom o (pre ++ [x]) xs
    | none => none
  | .dataset _, _, _ :: _ => none

/-- Resolve an absolute path from the root group. -/
def Container.resolve (c : Container) (p : List String) : Option Obj :=
  c.resolveFrom .group [] p

/-- Names of the links directly under the group at path `g`, in link order. -/
def Container.childNames (c : Container) (g : List String) : List String :=
  c.links.filterMap (fun e => if e.1.dropLast = g then e.1.getLast? else none)

/-- Allocate a fresh identifier for resource `r`. -/
def Engine.alloc (s : Engine) (r : Resource) : Int × Engine :=
  ((s.nextId : Int),
   { s with handles := ((s.nextId : Int), r) :: s.handles, nextId := s.nextId + 1 })

/-- Release identifier `h`. -/
def Engine.release (s : Engine) (h : Int) : Engine :=
  { s with handles := unbind h s.handles }

/-- Resolve `(loc_id, name)` to a file name and an absolute path: `loc_id` must be an
open file or group identifier and `name` non-empty; a name starting with `/` is
absolute, any other is relative to the location. -/
def Engine.locate (s : Engine) (loc_id : Int) (name : String) :
    Option (String × List String) :=
  if name.data = [] then none
  else
    match assoc loc_id s.handles with
    | some (.file f) => some (f, pathComponents name)
    | some (.group f base) =>
      some (f, if name.data.head? = some '/' then pathComponents name
               else base ++ pathComponents name)
    | _ => none

/-- The object that `(loc_id, name)` resolves to, with its file and path. -/
def Engine.lookupObj (s : Engine) (loc_id : Int) (name : String) :
    Option (String × List String × Obj) :=
  match s.locate loc_id name with
  | none => none
  | some (f, p) =>
    match assoc f s.files with
    | none => none
    | some c =>
      match c.resolve p with
      | none => none
      | some o => some (f, p, o)

/-- Is some identifier open on file `f` (the file itself or a group in it)? -/
def Engine.fileInUse (s : Engine) (f : String) : Bool :=
  s.handles.any (fun e =>
    match e.2 with
    | .file g => g = f
    | .group g _ => g = f
    | _ => false)

/-! ## The operation monad -/

/-- Fatal errors raised by the wrapper layer. -/
inductive Err where
  | dolfin_error (location task reason : String)
  | assertion (line : Nat)
  deriving DecidableEq, Repr

/-- A computation over the engine state that either returns a value or raises a
fatal error; the engine state reached is kept in both cases. -/
def M (α : Type) : Type := Engine → Except Err α × Engine

/-- Sequencing: an error ends the computation where it is raised. -/
def M.bind {α β : Type} (m : M α) (f : α → M β) : M β := fun s =>
  match m s with
  | (.ok a, s1) => f a s1
  | (.error e, s1) => (.error e, s1)

instance : Monad M where
  pure a := fun s => (.ok a, s)
  bind := M.bind

/-- Modelled from the spec: `dolfin_assert` (dolfin/log/log.h is not part of the
sources at hand); a failed check is a fatal error of the operation.  The tag is
the source line of the assertion. -/
def dolfin_assert (check : Bool) (line : Nat) : M Unit := fun s =>
  if check then (.ok (), s) else (.error (.assertion line), s)

/-- Modelled from the spec: `dolfin_error` (dolfin/log/log.h) raises a fatal error. -/
def dolfin_error {α : Type} (location task reason : String) : M α := fun s =>
  (.error (.dolfin_error location task reason), s)

/-! ## Engine calls

Each call returns the engine's C result (an identifier or status, `HDF5_FAIL` on
failure) and never raises; the wrappers inspect the result themselves. -/

/-- An engine call that may change the engine state. -/
def M.call {α : Type} (f : Engine → α × Engine) : M α := fun s =>
  match f s with
  | (a, s1) => (.ok a, s1)

/-- An engine call that only reads the engine state. -/
def M.read {α : Type} (f : Engine → α) : M α := fun s => (.ok (f s), s)

/-- `H5Pcreate(cls)`: a new property list of class `cls`. -/
def H5Pcreate (cls : PropClass) : M Int :=
  M.call fun s => s.alloc (.plist cls false)

/-- `H5Pset_fapl_mpio(plist_id, comm, info)`: request collective file access. -/
def H5Pset_fapl_mpio (plist_id : Int) : M Int :=
  M.call fun s =>
    match assoc plist_id s.handles with
    | some (.plist .H5P_FILE_ACCESS _) =>
      (0, { s with handles := rebind plist_id (.plist .H5P_FILE_ACCESS true) s.handles })
    | _ => (HDF5_FAIL, s)

/-- `H5Pclose(plist_id)`. -/
def H5Pclose (plist_id : Int) : M Int :=
  M.call fun s =>
    match assoc plist_id s.handles with
    | some (.plist _ _) => (0, s.release plist_id)
    | _ => (HDF5_FAIL, s)

/-- `H5Fcreate(filename, H5F_ACC_TRUNC, H5P_DEFAULT, fapl_id)`: create the file,
replacing an existing one by an empty container; fails when the file is in use. -/
def H5Fcreate (filename : String) (fapl_id : Int) : M Int :=
  M.call fun s =>
    match assoc fapl_id s.handles with
    | some (.plist .H5P_FILE_ACCESS _) =>
      if filename.data = [] ∨ s.fileInUse filename = true then (HDF5_FAIL, s)
      else
        Engine.alloc
          { s with files := (filename, ⟨[]⟩) :: s.files.filter (fun e => e.1 ≠ filename) }
          (.file filename)
    | _ => (HDF5_FAIL, s)

/-- `H5Fopen(filename, H5F_ACC_RDWR, fapl_id)`: open an existing file. -/
def H5Fopen (filename : String) (fapl_id : Int) : M Int :=
  M.call fun s =>
    match assoc fapl_id s.handles with
    | some (.plist .H5P_FILE_ACCESS _) =>
      match assoc filename s.files with
      | some _ => s.alloc (.file filename)
      | none => (HDF5_FAIL, s)
    | _ => (HDF5_FAIL, s)

/-- `H5Fclose(file_id)`. -/
def H5Fclose (file_id : Int) : M Int :=
  M.call fun s =>
    match assoc file_id s.handles with
    | some (.file _) => (0, s.release file_id)
    | _ => (HDF5_FAIL, s)

/-- `H5Eset_auto(func, client_data)`: install the error-reporting handler. -/
def H5Eset_auto (func client_data : Nat) : M Int :=
  M.call fun s => (0, { s with errAuto := ⟨func, client_data⟩ })

/-- `H5Eget_auto(&func, &client_data)`: read the installed handler. -/
def H5Eget_auto : M ErrAuto :=
  M.read fun s => s.errAuto

/-- `H5Gget_objinfo(loc_id, name, 0, NULL)`: `0` when the name resolves to an
object of any kind, failure otherwise. -/
def H5Gget_objinfo (loc_id : Int) (name : String) : M Int :=
  M.read fun s =>
    match s.lookupObj loc_id name with
    | some _ => 0
    | none => HDF5_FAIL

/-- `H5Lexists(loc_id, name, lapl_id)`: checks the final link of the path only:
`1` when it exists, `0` when it does not, and failure when a group on the way to
it is missing. -/
def H5Lexists (loc_id : Int) (name : String) (lapl_id : Int) : M Int :=
  M.read fun s =>
    match assoc lapl_id s.handles with
    | some (.plist .H5P_LINK_ACCESS _) =>
      match s.locate loc_id name with
      | none => HDF5_FAIL
      | some (f, p) =>
        match assoc f s.files with
        | none => HDF5_FAIL
        | some c =>
          if p = [] then 1
          else
            match c.resolve p.dropLast with
            | some .group => if (c.link? p).isSome then 1 else 0
            | _ => HDF5_FAIL
    | _ => HDF5_FAIL

/-- `H5Gcreate(loc_id, name, size_hint)`: create a group; the parent must exist and
be a group, and the name must be unused. -/
def H5Gcreate (loc_id : Int) (name : String) : M Int :=
  M.call fun s =>
    match s.locate loc_id name with
    | none => (HDF5_FAIL, s)
    | some (f, p) =>
      match assoc f s.files with
      | none => (HDF5_FAIL, s)
      | some c =>
        if p = [] then (HDF5_FAIL, s)
        else
          match c.resolve p.dropLast, c.link? p with
          | some .group, none =>
            Engine.alloc
              { s with files := rebind f ⟨c.links ++ [(p, Obj.group)]⟩ s.files }
              (.group f p)
          | _, _ => (HDF5_FAIL, s)

/-- `H5Gopen(loc_id, name)`. -/
def H5Gopen (loc_id : Int) (name : String) : M Int :=
  M.call fun s =>
    match s.lookupObj loc_id name with
    | some (f, p, .group) => s.alloc (.group f p)
    | _ => (HDF5_FAIL, s)

/-- `H5Gclose(group_id)`. -/
def H5Gclose (group_id : Int) : M Int :=
  M.call fun s =>
    match assoc group_id s.handles with
    | some (.group _ _) => (0, s.release group_id)
    | _ => (HDF5_FAIL, s)

/-- The child names of the group an identifier is open on. -/
def Engine.groupMembers (s : Engine) (group_id : Int) : Option (List String) :=
  match assoc group_id s.handles with
  | some (.group f p) =>
    match assoc f s.files with
    | some c => some (c.childNames p)
    | none => none
  | _ => none

/-- `H5Gget_num_objs(group_id, &num_objs)`: status and the value stored in
`num_objs`, which is left as it was on failure. -/
def H5Gget_num_objs (group_id : Int) (num_objs : Nat) : M (Int × Nat) :=
  M.read fun s =>
    match s.groupMembers group_id with
    | some ns => (0, ns.length)
    | none => (HDF5_FAIL, num_objs)

/-- `H5Gget_objname_by_idx(group_id, idx, name, size)`: copies at most `size - 1`
bytes of the name of member `idx` into the buffer and terminates it; returns the
full length of the name.  The result is the return value and the buffer content
(up to the terminator), which is left as it was on failure. -/
def H5Gget_objname_by_idx (group_id : Int) (idx : Nat) (name : List Char) (size : Nat) :
    M (Int × List Char) :=
  M.read fun s =>
    match s.groupMembers group_id with
    | some ns =>
      match ns.get? idx with
      | some n => ((n.data.length : Int), if size = 0 then name else n.data.take (size - 1))
      | none => (HDF5_FAIL, name)
    | none => (HDF5_FAIL, name)

/-- `H5Gget_info_by_name(loc_id, name, &group_info, lapl_id)`: status and the
`nlinks` field stored, which is left as it was on failure. -/
def H5Gget_info_by_name (loc_id : Int) (name : String) (nlinks : Nat) (lapl_id : Int) :
    M (Int × Nat) :=
  M.read fun s =>
    match assoc lapl_id s.handles with
    | some (.plist .H5P_LINK_ACCESS _) =>
      match s.lookupObj loc_id name with
      | some (f, p, .group) =>
        match assoc f s.files with
        | some c => (0, (c.childNames p).length)
        | none => (HDF5_FAIL, nlinks)
      | _ => (HDF5_FAIL, nlinks)
    | _ => (HDF5_FAIL, nlinks)

/-- `H5Dopen(loc_id, name)`. -/
def H5Dopen (loc_id : Int) (name : String) : M Int :=
  M.call fun s =>
    match s.lookupObj loc_id name with
    | some (_, _, .dataset dims) => s.alloc (.dataset dims)
    | _ => (HDF5_FAIL, s)

/-- `H5Dclose(dset_id)`. -/
def H5Dclose (dset_id : Int) : M Int :=
  M.call fun s =>
    match assoc dset_id s.handles with
    | some (.dataset _) => (0, s.release dset_id)
    | _ => (HDF5_FAIL, s)

/-- `H5Dget_space(dset_id)`: a new dataspace identifier holding the dataset's shape. -/
def H5Dget_space (dset_id : Int) : M Int :=
  M.call fun s =>
    match assoc dset_id s.handles with
    | some (.dataset dims) => s.alloc (.dataspace dims)
    | _ => (HDF5_FAIL, s)

/-- `H5Sget_simple_extent_ndims(space_id)`. -/
def H5Sget_simple_extent_ndims (space_id : Int) : M Int :=
  M.read fun s =>
    match assoc space_id s.handles with
    | some (.dataspace dims) => (dims.length : Int)
    | _ => HDF5_FAIL

/-- `H5Sget_simple_extent_dims(space_id, dims, NULL)`: the rank and the content of
the `dims` array, which is left as it was on failure. -/
def H5Sget_simple_extent_dims (space_id : Int) (dims : List Nat) : M (Int × List Nat) :=
  M.read fun s =>
    match assoc space_id s.handles with
    | some (.dataspace ds) => ((ds.length : Int), ds)
    | _ => (HDF5_FAIL, dims)

/-- `H5Sclose(space_id)`. -/
def H5Sclose (space_id : Int) : M Int :=
  M.call fun s =>
    match assoc space_id s.handles with
    | some (.dataspace _) => (0, s.release space_id)
    | _ => (HDF5_FAIL, s)

/-! ## The wrapper functions of HDF5Interface.cpp -/

/-- `HDF5Interface::open_file` (lines 37-74).  `HAS_MPI` is the build switch of the
conditional compilation at lines 44-53. -/
def open_file (HAS_MPI : Bool) (filename : String) (truncate : Bool) (use_mpi_io : Bool) :
    M Int := do
  let plist_id ← H5Pcreate .H5P_FILE_ACCESS
  if use_mpi_io then
    if HAS_MPI then
      let status ← H5Pset_fapl_mpio plist_id
      dolfin_assert (status ≠ HDF5_FAIL) 48
    else
      dolfin_error "HDF5Interface.cpp" "create file"
        "Cannot use MPI-IO output if DOLFIN is not configured with MPI"
  let file_id ← if truncate then H5Fcreate filename plist_id else H5Fopen filename plist_id
  dolfin_assert (file_id ≠ HDF5_FAIL) 67
  let status ← H5Pclose plist_id
  dolfin_assert (status ≠ HDF5_FAIL) 71
  return file_id

/-- `HDF5Interface::has_group` (lines 76-85). -/
def has_group (hdf5_file_handle : Int) (group_name : String) : M Bool := do
  let _ ← H5Eset_auto 0 0
  let status ← H5Gget_objinfo hdf5_file_handle group_name
  if status = 0 then
    return true
  else
    return false

/-- `HDF5Interface::has_dataset` (lines 87-94). -/
def has_dataset (hdf5_file_handle : Int) (dataset_name : String) : M Bool := do
  let lapl_id ← H5Pcreate .H5P_LINK_ACCESS
  let status ← H5Lexists hdf5_file_handle dataset_name lapl_id
  dolfin_assert (status ≥ 0) 92
  return decide (status ≠ 0)

/-- `HDF5Interface::add_group` (lines 96-106). -/
def add_group (hdf5_file_handle : Int) (group_name : String) : M Unit := do
  if (← has_group hdf5_file_handle group_name) then
    return
  let group_id_vis ← H5Gcreate hdf5_file_handle group_name
  dolfin_assert (group_id_vis ≠ HDF5_FAIL) 102
  let status ← H5Gclose group_id_vis
  dolfin_assert (status ≠ HDF5_FAIL) 105

/-- `HDF5Interface::dataset_rank` (lines 108-123). -/
def dataset_rank (hdf5_file_handle : Int) (dataset_name : String) : M Nat := do
  let dset_id ← H5Dopen hdf5_file_handle dataset_name
  dolfin_assert (dset_id ≠ HDF5_FAIL) 113
  let space ← H5Dget_space dset_id
  dolfin_assert (space ≠ HDF5_FAIL) 117
  let rank ← H5Sget_simple_extent_ndims space
  dolfin_assert (rank ≥ 0) 121
  return int_to_uint rank

/-- `HDF5Interface::get_dataset_size` (lines 125-154). -/
def get_dataset_size (hdf5_file_handle : Int) (dataset_name : String) : M (List Nat) := do
  let dset_id ← H5Dopen hdf5_file_handle dataset_name
  dolfin_assert (dset_id ≠ HDF5_FAIL) 131
  let space ← H5Dget_space dset_id
  dolfin_assert (space ≠ HDF5_FAIL) 135
  let rank ← H5Sget_simple_extent_ndims space
  let size : List Nat := List.replicate rank.toNat 0
  let (ndims, size) ← H5Sget_simple_extent_dims space size
  dolfin_assert (ndims = rank) 145
  let status ← H5Sclose space
  dolfin_assert (status ≠ HDF5_FAIL) 149
  let status ← H5Dclose dset_id
  dolfin_assert (status ≠ HDF5_FAIL) 151
  return size.map to_uint

/-- `HDF5Interface::dataset_exists` (lines 156-192); `filename` is the value of
`hdf5_file.name()`. -/
def dataset_exists (HAS_MPI : Bool) (filename : String) (dataset_name : String)
    (use_mpi_io : Bool) : M Bool := do
  let file_id ← open_file HAS_MPI filename false use_mpi_io
  let old ← H5Eget_auto
  let status ← H5Eset_auto 0 0
  dolfin_assert (status ≠ HDF5_FAIL) 175
  let dset_id ← H5Dopen file_id dataset_name
  if dset_id ≠ HDF5_FAIL then
    let _ ← H5Dclose dset_id
  let status ← H5Eset_auto old.func old.client_data
  dolfin_assert (status ≠ HDF5_FAIL) 184
  let status ← H5Fclose file_id
  dolfin_assert (status ≠ HDF5_FAIL) 188
  return decide (dset_id ≠ HDF5_FAIL)

/-- `HDF5Interface::num_datasets_in_group` (lines 194-204). -/
def num_datasets_in_group (hdf5_file_handle : Int) (group_name : String) : M Nat := do
  let lapl_id ← H5Pcreate .H5P_LINK_ACCESS
  let (status, nlinks) ← H5Gget_info_by_name hdf5_file_handle group_name 0 lapl_id
  dolfin_assert (status ≠ HDF5_FAIL) 202
  return to_uint nlinks

/-- The loop of lines 225-229 and 261-265: `remaining` iterations starting at index
`i`; each reads a name into `namebuf` and appends the buffer's string to the list. -/
def dataset_list_loop (group_id : Int) :
    Nat → Nat → List Char → List String → M (List String)
  | 0, _, _, list_of_datasets => pure list_of_datasets
  | remaining + 1, i, namebuf, list_of_datasets => do
    let (_, namebuf) ← H5Gget_objname_by_idx group_id i namebuf HDF5_MAXSTRLEN
    dataset_list_loop group_id remaining (i + 1) namebuf
      (list_of_datasets ++ [String.mk namebuf])

/-- `HDF5Interface::dataset_list(hid_t, std::string)` (lines 206-236). -/
def dataset_list (hdf5_file_handle : Int) (group_name : String) : M (List String) := do
  let group_id ← H5Gopen hdf5_file_handle group_name
  dolfin_assert (group_id ≠ HDF5_FAIL) 216
  let (status, num_datasets) ← H5Gget_num_objs group_id 0
  dolfin_assert (status ≠ HDF5_FAIL) 221
  let list_of_datasets ← dataset_list_loop group_id num_datasets 0 [] []
  let status ← H5Gclose group_id
  dolfin_assert (status ≠ HDF5_FAIL) 233
  return list_of_datasets

/-- `HDF5Interface::dataset_list(std::string, std::string, bool)` (lines 238-276). -/
def dataset_list_file (HAS_MPI : Bool) (filename : String) (group_name : String)
    (use_mpi_io : Bool) : M (List String) := do
  let file_id ← open_file HAS_MPI filename false use_mpi_io
  let group_id ← H5Gopen file_id group_name
  dolfin_assert (group_id ≠ HDF5_FAIL) 252
  let (status, num_datasets) ← H5Gget_num_objs group_id 0
  dolfin_assert (status ≠ HDF5_FAIL) 257
  let list_of_datasets ← dataset_list_loop group_id num_datasets 0 [] []
  let status ← H5Gclose group_id
  dolfin_assert (status ≠ HDF5_FAIL) 269
  let status ← H5Fclose file_id
  dolfin_assert (status ≠ HDF5_FAIL) 273
  return list_of_datasets

/-! ## Auxiliary states used in the statements -/

/-- The state `open_file` leaves behind when it fails: only the access property
list it created has been added. -/
def afterFailedOpen (s : Engine) (mpio : Bool) : Engine :=
  { s with handles := ((s.nextId : Int), .plist .H5P_FILE_ACCESS mpio) :: s.handles,
           nextId := s.nextId + 1 }

/-- The state after a successful non-truncating `open_file`. -/
def afterOpen (s : Engine) (filename : String) : Engine :=
  { s with handles := ((s.nextId : Int) + 1, .file filename) :: s.handles,
           nextId := s.nextId + 2 }

/-- The state after a successful truncating `open_file`. -/
def afterCreate (s : Engine) (filename : String) : Engine :=
  { s with files := (filename, ⟨[]⟩) :: s.files.filter (fun e => e.1 ≠ filename),
           handles := ((s.nextId : Int) + 1, .file filename) :: s.handles,
           nextId := s.nextId + 2 }

/-- The message of the `dolfin_error` call at lines 50-52. -/
def mpiConfigurationError : Err :=
  .dolfin_error "HDF5Interface.cpp" "create file"
    "Cannot use MPI-IO output if DOLFIN is not configured with MPI"

/-- An engine with no files and no open identifiers; its error handler is installed. -/
def emptyEngine : Engine := ⟨[], [], 1, ⟨1, 0⟩⟩

/-- A container with a group `/g` holding the datasets `x` and `y`, and a dataset `/d`. -/
def sampleContainer : Container :=
  ⟨[(["g"], .group), (["g", "x"], .dataset [3, 4]), (["g", "y"], .dataset []),
    (["d"], .dataset [2, 5])]⟩

/-- An engine with the file `f.h5` open under identifier `2` and the default error
handler installed. -/
def sampleEngine : Engine := ⟨[("f.h5", sampleContainer)], [(2, .file "f.h5")], 3, ⟨1, 0⟩⟩

/-- The same file on disk, with nothing open. -/
def sampleDisk : Engine := ⟨[("f.h5", sampleContainer)], [], 1, ⟨1, 0⟩⟩

/-- An engine whose open file holds a dataset `/big` with an extent of `2 ^ 32`. -/
def bigExtentEngine : Engine :=
  ⟨[("f.h5", ⟨[(["big"], .dataset [3, 4294967296])]⟩)], [(2, .file "f.h5")], 3, ⟨1, 0⟩⟩

/-- The first `HDF5_MAXSTRLEN - 1` bytes of a name: what fits the name buffer before
its terminator. -/
def truncName (n : String) : String := String.mk (n.data.take (HDF5_MAXSTRLEN - 1))

/-- The names of the direct children of the group that `(loc_id, name)` resolves to. -/
def Engine.childrenOf (s : Engine) (loc_id : Int) (name : String) : Option (List String) :=
  match s.lookupObj loc_id name with
  | some (f, p, .group) =>
    match assoc f s.files with
    | some c => some (c.childNames p)
    | none => none
  | _ => none

/-- The reading of the file-name overload of `dataset_list` given by the
specification: open the container without truncating, run the identifier overload,
close the container. -/
def dataset_list_open_close (HAS_MPI : Bool) (filename : String) (group_name : String)
    (use_mpi_io : Bool) : M (List String) := do
  let file_id ← open_file HAS_MPI filename false use_mpi_io
  let list_of_datasets ← dataset_list file_id group_name
  let status ← H5Fclose file_id
  dolfin_assert (status ≠ HDF5_FAIL) 273
  return list_of_datasets

/-- A name of 80 bytes: 79 times `a`, then `last`. -/
def longName (last : Char) : String := String.mk (List.replicate 79 'a' ++ [last])

/-- An engine whose open file holds a group `/g` with two datasets whose 80-byte
names differ in the last byte only. -/
def longNamesEngine : Engine :=
  ⟨[("f.h5", ⟨[(["g"], .group), (["g", longName 'x'], .dataset []),
      (["g", longName 'y'], .dataset [])]⟩)],
   [(2, .file "f.h5")], 3, ⟨1, 0⟩⟩

/-- The same file on disk, with nothing open. -/
def longNamesDisk : Engine := { longNamesEngine with handles := [], nextId := 1 }

/-- The state after `add_group` has created the group at path `p` of file `f`, whose
container was `c`: the link is appended, error reporting is disabled, one identifier
has been used and released. -/
def afterGroupCreated (s : Engine) (f : String) (c : Container) (p : List String) : Engine :=
  { files := rebind f ⟨c.links ++ [(p, Obj.group)]⟩ s.files,
    handles := s.handles,
    nextId := s.nextId + 1,
    errAuto := ⟨0, 0⟩ }

/-! ## Running the monad -/

theorem M.bind_run {α β : Type} (m : M α) (f : α → M β) (s : Engine) :
    (m >>= f) s = match m s with
      | (.ok a, s1) => f a s1
      | (.error e, s1) => (.error e, s1) := rfl

theorem M.pure_run {α : Type} (a : α) (s : Engine) : (pure a : M α) s = (.ok a, s) := rfl

theorem M.call_bind {α β : Type} (f : Engine → α × Engine) (k : α → M β) (s : Engine) :
    (M.call f >>= k) s = k (f s).1 (f s).2 := rfl

theorem M.read_bind {α β : Type} (f : Engine → α) (k : α → M β) (s : Engine) :
    (M.read f >>= k) s = k (f s) s := rfl

theorem M.assert_bind {β : Type} (check : Bool) (line : Nat) (k : Unit → M β) (s : Engine) :
    (dolfin_assert check line >>= k) s =
      if check = true then k () s else (.error (.assertion line), s) := by
  cases check <;> rfl

theorem M.assert_run (check : Bool) (line : Nat) (s : Engine) :
    dolfin_assert check line s =
      if check = true then (.ok (), s) else (.error (.assertion line), s) := by
  cases check <;> rfl

theorem id_ne_fail (n : Nat) : ((n : Int) = -1) = False := by
  simp only [eq_iff_iff, iff_false]; omega

theorem id_succ_ne_fail (n : Nat) : ((n : Int) + 1 = -1) = False := by
  simp only [eq_iff_iff, iff_false]; omega

theorem id_succ_ne (n : Nat) : ((n : Int) + 1 = (n : Int)) = False := by
  simp only [eq_iff_iff, iff_false]; omega

theorem id_ne_succ (n : Nat) : ((n : Int) = (n : Int) + 1) = False := by
  simp only [eq_iff_iff, iff_false]; omega

theorem open_file_noMPI (filename : String) (truncate : Bool) (s : Engine) :
    open_file false filename truncate true s =
      (.error (.dolfin_error "HDF5Interface.cpp" "create file"
        "Cannot use MPI-IO output if DOLFIN is not configured with MPI"),
       afterFailedOpen s false) := by
  simp [open_file, M.bind_run, M.pure_run, M.call, M.read, H5Pcreate, dolfin_error, afterFailedOpen,
    Engine.alloc]

theorem open_file_open (HAS_MPI : Bool) (filename : String) (use_mpi_io : Bool) (s : Engine)
    (hm : use_mpi_io = false ∨ HAS_MPI = true) (c : Container)
    (hc : assoc filename s.files = some c) :
    open_file HAS_MPI filename false use_mpi_io s =
      (.ok ((s.nextId : Int) + 1), afterOpen s filename) := by
  rcases hm with rfl | rfl
  · simp [open_file, M.bind_run, M.pure_run, M.call, M.read, H5Pcreate, H5Fopen, Engine.alloc, assoc, hc,
      dolfin_assert, HDF5_FAIL, H5Pclose, Engine.release, unbind, afterOpen,
      id_succ_ne_fail, id_succ_ne]
  · cases use_mpi_io <;>
    simp [open_file, M.bind_run, M.pure_run, M.call, M.read, H5Pcreate, H5Fopen, Engine.alloc, assoc, hc,
      dolfin_assert, HDF5_FAIL, H5Pclose, Engine.release, unbind, afterOpen,
      id_succ_ne_fail, id_succ_ne, H5Pset_fapl_mpio, rebind]

theorem open_file_missing (HAS_MPI : Bool) (filename : String) (use_mpi_io : Bool)
    (s : Engine) (hm : use_mpi_io = false ∨ HAS_MPI = true)
    (hc : assoc filename s.files = none) :
    open_file HAS_MPI filename false use_mpi_io s =
      (.error (.assertion 67), afterFailedOpen s use_mpi_io) := by
  rcases hm with rfl | rfl
  · simp [open_file, M.bind_run, M.pure_run, M.call, M.read, H5Pcreate, H5Fopen, Engine.alloc, assoc, hc,
      dolfin_assert, HDF5_FAIL, afterFailedOpen]
  · cases use_mpi_io <;>
    simp [open_file, M.bind_run, M.pure_run, M.call, M.read, H5Pcreate, H5Fopen, Engine.alloc, assoc, hc,
      dolfin_assert, HDF5_FAIL, afterFailedOpen, H5Pset_fapl_mpio, rebind]

theorem H5Fcreate_run (filename : String) (fapl_id : Int) (s : Engine) (m : Bool)
    (hp : assoc fapl_id s.handles = some (.plist .H5P_FILE_ACCESS m)) :
    H5Fcreate filename fapl_id s =
      if filename.data = [] ∨ s.fileInUse filename = true then (.ok HDF5_FAIL, s)
      else (.ok (s.nextId : Int),
        { s with files := (filename, ⟨[]⟩) :: s.files.filter (fun e => e.1 ≠ filename),
                 handles := ((s.nextId : Int), .file filename) :: s.handles,
                 nextId := s.nextId + 1 }) := by
  simp only [H5Fcreate, M.call, hp]
  split <;> rfl

theorem open_file_create (HAS_MPI : Bool) (filename : String) (use_mpi_io : Bool)
    (s s1 : Engine) (h : Int)
    (hopen : open_file HAS_MPI filename true use_mpi_io s = (.ok h, s1)) :
    h = (s.nextId : Int) + 1 ∧ s1 = afterCreate s filename := by
  have e1 : H5Pcreate .H5P_FILE_ACCESS s = (.ok (s.nextId : Int), afterFailedOpen s false) := rfl
  have e2 : H5Pset_fapl_mpio (s.nextId : Int) (afterFailedOpen s false) =
      (.ok 0, afterFailedOpen s true) := by
    simp [H5Pset_fapl_mpio, M.call, afterFailedOpen, assoc, rebind]
  have e3 : ∀ m, H5Fcreate filename (s.nextId : Int) (afterFailedOpen s m) = _ :=
    fun m => H5Fcreate_run filename (s.nextId : Int) (afterFailedOpen s m) m
      (by simp [afterFailedOpen, assoc])
  have e4 : ∀ m, (afterFailedOpen s m).fileInUse filename = s.fileInUse filename := by
    intro m; simp [Engine.fileInUse, afterFailedOpen]
  by_cases hbusy : filename.data = [] ∨ s.fileInUse filename = true
  · cases use_mpi_io <;> cases HAS_MPI <;>
    simp [open_file, M.bind_run, M.pure_run, e1, e2, e3, e4, hbusy, dolfin_assert, HDF5_FAIL,
      dolfin_error] at hopen
  · cases use_mpi_io <;> cases HAS_MPI <;>
    simp [open_file, M.bind_run, M.pure_run, e1, e2, e3, e4, hbusy, dolfin_assert, HDF5_FAIL,
      dolfin_error] at hopen
    all_goals
      simp [H5Pclose, M.call, afterFailedOpen, assoc, id_succ_ne_fail, id_ne_fail,
        id_succ_ne, id_ne_succ, Engine.release, unbind] at hopen
      simp [afterCreate, ← hopen.1, ← hopen.2]

/-! ## Opening files -/

/-- C6: in a build without MPI support, `open_file` with `use_mpi_io = true` fails
with the configuration error for every file name and every `truncate`; the files
on disk are exactly those before the call, and the only identifier opened is the
access property list (no file identifier). -/
theorem open_file_mpi_unconfigured (filename : String) (truncate : Bool) (s : Engine) :
    (open_file false filename truncate true s).1 = .error mpiConfigurationError ∧
    (open_file false filename truncate true s).2.files = s.files ∧
    (open_file false filename truncate true s).2.handles =
      ((s.nextId : Int), .plist .H5P_FILE_ACCESS false) :: s.handles := by
  rw [open_file_noMPI]
  exact ⟨rfl, rfl, rfl⟩

/-- C7 fails as stated: in a build without MPI support, opening a missing file with
`use_mpi_io = true` ends in the configuration error, not in the failed check on
the file identifier. -/
theorem open_file_missing_mpi_counterexample :
    assoc "missing.h5" emptyEngine.files = none ∧
    (open_file false "missing.h5" false true emptyEngine).1 = .error mpiConfigurationError ∧
    (open_file false "missing.h5" false true emptyEngine).1 ≠ .error (.assertion 67) :=
  ⟨rfl, rfl, by simp [open_file_noMPI]⟩

/-- C7 (amended): when no file exists under the name, a non-truncating `open_file`
returns no identifier and creates no file; the error is the failed check on the
file identifier (line 67) unless MPI I/O is requested in a build without MPI, where
it is the configuration error. -/
theorem open_file_missing_fails (HAS_MPI : Bool) (filename : String) (use_mpi_io : Bool)
    (s : Engine) (hc : assoc filename s.files = none) :
    (∃ e, (open_file HAS_MPI filename false use_mpi_io s).1 = .error e) ∧
    (open_file HAS_MPI filename false use_mpi_io s).2.files = s.files ∧
    ((use_mpi_io = false ∨ HAS_MPI = true) →
      (open_file HAS_MPI filename false use_mpi_io s).1 = .error (.assertion 67)) ∧
    ((use_mpi_io = true ∧ HAS_MPI = false) →
      (open_file HAS_MPI filename false use_mpi_io s).1 = .error mpiConfigurationError) := by
  by_cases hm : use_mpi_io = false ∨ HAS_MPI = true
  · rw [open_file_missing HAS_MPI filename use_mpi_io s hm hc]
    refine ⟨⟨_, rfl⟩, rfl, fun _ => rfl, ?_⟩
    rintro ⟨h1, h2⟩
    rcases hm with h | h
    · rw [h1] at h; cases h
    · rw [h2] at h; cases h
  · have h1 : use_mpi_io = true := by
      cases use_mpi_io
      · exact absurd (Or.inl rfl) hm
      · rfl
    have h2 : HAS_MPI = false := by
      cases HAS_MPI
      · rfl
      · exact absurd (Or.inr rfl) hm
    subst h1; subst h2
    rw [open_file_noMPI]
    exact ⟨⟨_, rfl⟩, rfl, fun h => absurd h hm, fun _ => rfl⟩

/-- The amended C7 at a missing file, in a build with MPI and with MPI I/O requested. -/
theorem open_file_missing_fails_witness :
    (∃ e, (open_file true "missing.h5" false true emptyEngine).1 = .error e) ∧
    (open_file true "missing.h5" false true emptyEngine).2.files = emptyEngine.files ∧
    ((true = false ∨ true = true) →
      (open_file true "missing.h5" false true emptyEngine).1 = .error (.assertion 67)) ∧
    ((true = true ∧ true = false) →
      (open_file true "missing.h5" false true emptyEngine).1 = .error mpiConfigurationError) :=
  open_file_missing_fails true "missing.h5" true emptyEngine rfl

/-! ## Existence probes -/

theorem has_group_run (h : Int) (P : String) (s : Engine) :
    has_group h P s = (.ok (s.lookupObj h P).isSome, { s with errAuto := ⟨0, 0⟩ }) := by
  have hl : Engine.lookupObj { s with errAuto := ⟨0, 0⟩ } h P = s.lookupObj h P := rfl
  simp only [has_group, M.bind_run, H5Eset_auto, H5Gget_objinfo, M.call, M.read, hl]
  cases s.lookupObj h P <;> simp [HDF5_FAIL, M.pure_run]

theorem pathComponents_ne_nil (P : String) (hP : pathComponents P ≠ []) : P.data ≠ [] := by
  intro h
  apply hP
  simp [pathComponents, h, splitSlash]

/-- In a state left by a truncating `open_file`, no non-root path resolves. -/
theorem lookupObj_afterCreate (s : Engine) (filename P : String)
    (hP : pathComponents P ≠ []) :
    (afterCreate s filename).lookupObj ((s.nextId : Int) + 1) P = none := by
  have hd := pathComponents_ne_nil P hP
  cases hc : pathComponents P with
  | nil => exact absurd hc hP
  | cons x xs =>
    simp [Engine.lookupObj, Engine.locate, afterCreate, assoc, hd, hc, Container.resolve,
      Container.resolveFrom, Container.link?]

/-- Every run of `has_group` ends with error reporting disabled. -/
theorem has_group_disables_reporting (h : Int) (P : String) (s : Engine) :
    (has_group h P s).2.errAuto = ⟨0, 0⟩ := by
  rw [has_group_run]

/-- The probe `has_dataset` does not touch the error-reporting setting. -/
theorem has_dataset_keeps_reporting (h : Int) (P : String) (s : Engine) :
    (has_dataset h P s).2.errAuto = s.errAuto := by
  simp only [has_dataset, H5Pcreate, H5Lexists, M.call_bind, M.read_bind, M.assert_bind]
  split <;> rfl

/-- C4, evaluated: in a container just created, on the absent path `/a/b` (whose
parent `/a` is absent too) `has_group` returns false, but the link query of
`has_dataset` fails and `has_dataset` trips its own check `status >= 0` of line 92
instead of returning false. -/
theorem has_dataset_absent_parent :
    open_file false "new.h5" true false emptyEngine = (.ok 2, afterCreate emptyEngine "new.h5") ∧
    (afterCreate emptyEngine "new.h5").lookupObj 2 "/a/b" = none ∧
    (has_group 2 "/a/b" (afterCreate emptyEngine "new.h5")).1 = .ok false ∧
    (H5Lexists 2 "/a/b" 3 (H5Pcreate .H5P_LINK_ACCESS (afterCreate emptyEngine "new.h5")).2).1 =
      .ok HDF5_FAIL ∧
    (has_dataset 2 "/a/b" (afterCreate emptyEngine "new.h5")).1 = .error (.assertion 92) :=
  ⟨rfl, rfl, rfl, rfl, rfl⟩

/-- In a container just created by `open_file` with `truncate`, `has_group` returns
false without error for every path other than the root, and `has_dataset` returns
false without error for every path of one component (whose parent, the root group,
exists). -/
theorem probes_on_fresh_container (HAS_MPI : Bool) (filename : String) (use_mpi_io : Bool)
    (s s1 : Engine) (h : Int) (P : String)
    (hopen : open_file HAS_MPI filename true use_mpi_io s = (.ok h, s1))
    (hP : pathComponents P ≠ []) :
    (has_group h P s1).1 = .ok false ∧
    ((pathComponents P).length = 1 → (has_dataset h P s1).1 = .ok false) := by
  obtain ⟨rfl, rfl⟩ := open_file_create HAS_MPI filename use_mpi_io s s1 h hopen
  refine ⟨?_, ?_⟩
  · rw [has_group_run, lookupObj_afterCreate s filename P hP]
    rfl
  · intro hlen
    have hd := pathComponents_ne_nil P hP
    obtain ⟨x, hx⟩ := List.length_eq_one.mp hlen
    simp [has_dataset, M.bind_run, M.pure_run, M.call, M.read, H5Pcreate, Engine.alloc,
      H5Lexists, assoc, afterCreate, Engine.locate, hd, hx, Container.resolve,
      Container.resolveFrom, Container.link?, dolfin_assert, id_succ_ne]

/-- Both probes return false at the one-component path `/a` of a container just
created. -/
theorem probes_on_fresh_container_at_a :
    (has_group 2 "/a" (afterCreate emptyEngine "new.h5")).1 = .ok false ∧
    (has_dataset 2 "/a" (afterCreate emptyEngine "new.h5")).1 = .ok false :=
  ⟨(probes_on_fresh_container false "new.h5" false emptyEngine _ 2 "/a" rfl (by decide)).1,
   (probes_on_fresh_container false "new.h5" false emptyEngine _ 2 "/a" rfl (by decide)).2
     (by decide)⟩

/-- C5, evaluated: `has_group` leaves error reporting disabled although a handler
was installed before the call. -/
theorem has_group_leaves_reporting_disabled :
    sampleEngine.errAuto = ⟨1, 0⟩ ∧
    (has_group 2 "/g" sampleEngine).1 = .ok true ∧
    (has_group 2 "/g" sampleEngine).2.errAuto = ⟨0, 0⟩ ∧
    (has_group 2 "/g" sampleEngine).2.errAuto ≠ sampleEngine.errAuto :=
  ⟨rfl, rfl, rfl, by decide⟩

/-! ## Dataset shape queries -/

theorem int_to_uint_natCast (n : Nat) (hn : n ≤ H5S_MAX_RANK) : int_to_uint (n : Int) = n := by
  simp only [H5S_MAX_RANK] at hn
  simp only [int_to_uint, UINT_BITS]
  omega

theorem dataset_rank_run (s : Engine) (h : Int) (P f : String) (p : List String)
    (dims : List Nat) (hl : s.lookupObj h P = some (f, p, .dataset dims)) :
    dataset_rank h P s =
      (.ok (int_to_uint (dims.length : Int)),
       { s with handles := ((s.nextId : Int) + 1, .dataspace dims) ::
                           ((s.nextId : Int), .dataset dims) :: s.handles,
                nextId := s.nextId + 2 }) := by
  simp [dataset_rank, H5Dopen, H5Dget_space, H5Sget_simple_extent_ndims, M.call_bind,
    M.read_bind, M.assert_bind, M.pure_run, hl, Engine.alloc, assoc, HDF5_FAIL, id_ne_fail,
    id_succ_ne_fail]

theorem get_dataset_size_run (s : Engine) (h : Int) (P f : String) (p : List String)
    (dims : List Nat) (hl : s.lookupObj h P = some (f, p, .dataset dims)) :
    get_dataset_size h P s = (.ok (dims.map to_uint), { s with nextId := s.nextId + 2 }) := by
  simp [get_dataset_size, H5Dopen, H5Dget_space, H5Sget_simple_extent_ndims,
    H5Sget_simple_extent_dims, H5Sclose, H5Dclose, M.call_bind,
    M.read_bind, M.assert_bind, M.pure_run, hl, Engine.alloc, assoc, HDF5_FAIL, id_ne_fail,
    id_succ_ne_fail, Engine.release, unbind, id_succ_ne, id_ne_succ]

/-- C2 fails as stated: an extent of `2 ^ 32` is reported as `0`. -/
theorem get_dataset_size_wraps_counterexample :
    bigExtentEngine.lookupObj 2 "/big" = some ("f.h5", ["big"], .dataset [3, 4294967296]) ∧
    (get_dataset_size 2 "/big" bigExtentEngine).1 = .ok [3, 0] ∧
    (get_dataset_size 2 "/big" bigExtentEngine).1 ≠ .ok [3, 4294967296] := by
  refine ⟨rfl, rfl, ?_⟩
  rw [get_dataset_size_run bigExtentEngine 2 "/big" "f.h5" ["big"] [3, 4294967296] rfl]
  simp [to_uint, UINT_BITS]

/-- C2 (amended): for a dataset stored at `P` with shape `dims` (of rank at most
`H5S_MAX_RANK`), `dataset_rank` returns the rank and `get_dataset_size` returns the
extents in order, each reduced modulo `2 ^ 32`; the shape itself is returned exactly
when every extent is below `2 ^ 32`. -/
theorem dataset_shape_queries (s : Engine) (h : Int) (P f : String) (p : List String)
    (dims : List Nat) (hl : s.lookupObj h P = some (f, p, .dataset dims))
    (hr : dims.length ≤ H5S_MAX_RANK) :
    (dataset_rank h P s).1 = .ok dims.length ∧
    (get_dataset_size h P s).1 = .ok (dims.map (fun d => d % 2 ^ 32)) ∧
    ((∀ d ∈ dims, d < 2 ^ 32) → (get_dataset_size h P s).1 = .ok dims) := by
  rw [dataset_rank_run s h P f p dims hl, get_dataset_size_run s h P f p dims hl,
    int_to_uint_natCast _ hr]
  refine ⟨rfl, rfl, ?_⟩
  intro hsmall
  have : dims.map to_uint = dims := by
    conv_rhs => rw [← List.map_id dims]
    apply List.map_congr_left
    intro d hd
    simp only [to_uint, UINT_BITS, id]
    exact Nat.mod_eq_of_lt (hsmall d hd)
  simp only [this]

/-- The amended C2 at the dataset `/g/x` of shape `[3, 4]`. -/
theorem dataset_shape_queries_witness :
    (dataset_rank 2 "/g/x" sampleEngine).1 = .ok [3, 4].length ∧
    (get_dataset_size 2 "/g/x" sampleEngine).1 = .ok ([3, 4].map (fun d => d % 2 ^ 32)) ∧
    ((∀ d ∈ [3, 4], d < 2 ^ 32) → (get_dataset_size 2 "/g/x" sampleEngine).1 = .ok [3, 4]) :=
  dataset_shape_queries sampleEngine 2 "/g/x" "f.h5" ["g", "x"] [3, 4] rfl (by decide)

/-! ## Identifiers left open -/

/-- C9, evaluated: `dataset_rank` returns with its dataset and dataspace identifiers
still open, `has_dataset` and `num_datasets_in_group` with their property list, and
the file-name overload of `dataset_list` with the file when the group cannot be
opened. -/
theorem identifiers_left_open :
    sampleEngine.handles = [(2, .file "f.h5")] ∧
    dataset_rank 2 "/d" sampleEngine =
      (.ok 2, { sampleEngine with
        handles := [(4, .dataspace [2, 5]), (3, .dataset [2, 5]), (2, .file "f.h5")],
        nextId := 5 }) ∧
    has_dataset 2 "/d" sampleEngine =
      (.ok true, { sampleEngine with
        handles := [(3, .plist .H5P_LINK_ACCESS false), (2, .file "f.h5")], nextId := 4 }) ∧
    num_datasets_in_group 2 "/g" sampleEngine =
      (.ok 2, { sampleEngine with
        handles := [(3, .plist .H5P_LINK_ACCESS false), (2, .file "f.h5")], nextId := 4 }) ∧
    sampleDisk.handles = [] ∧
    dataset_list_file false "f.h5" "/missing" false sampleDisk =
      (.error (.assertion 252), { sampleDisk with
        handles := [(2, .file "f.h5")], nextId := 3 }) :=
  ⟨rfl, rfl, rfl, rfl, rfl, rfl⟩

/-! ## Enumerating a group -/

theorem alloc_fst (s : Engine) (r : Resource) : (s.alloc r).1 = (s.nextId : Int) := rfl

theorem alloc_handles (s : Engine) (r : Resource) :
    (s.alloc r).2.handles = ((s.nextId : Int), r) :: s.handles := rfl

theorem alloc_files (s : Engine) (r : Resource) : (s.alloc r).2.files = s.files := rfl

theorem lookupObj_some (s : Engine) (h : Int) (P f : String) (p : List String) (o : Obj)
    (hl : s.lookupObj h P = some (f, p, o)) :
    ∃ c, assoc f s.files = some c ∧ c.resolve p = some o := by
  unfold Engine.lookupObj at hl
  split at hl
  · cases hl
  · rename_i f1 p1 _
    split at hl
    · cases hl
    · rename_i c hc
      split at hl
      · cases hl
      · rename_i o1 ho
        simp only [Option.some.injEq, Prod.mk.injEq] at hl
        obtain ⟨rfl, rfl, rfl⟩ := hl
        exact ⟨c, hc, ho⟩

theorem dataset_list_loop_run (group_id : Int) (s : Engine) (ns : List String)
    (hg : s.groupMembers group_id = some ns) :
    ∀ (n i : Nat) (namebuf : List Char) (acc : List String), i + n = ns.length →
      dataset_list_loop group_id n i namebuf acc s =
        (.ok (acc ++ (ns.drop i).map truncName), s) := by
  intro n
  induction n with
  | zero =>
    intro i namebuf acc hi
    have : ns.drop i = [] := List.drop_eq_nil_of_le (by omega)
    simp [dataset_list_loop, M.pure_run, this]
  | succ n ih =>
    intro i namebuf acc hi
    have hlt : i < ns.length := by omega
    have hget : ns.get? i = some ns[i] := by simp [List.getElem?_eq_getElem hlt]
    have hdrop : ns.drop i = ns[i] :: ns.drop (i + 1) := List.drop_eq_getElem_cons hlt
    simp only [dataset_list_loop, H5Gget_objname_by_idx, M.read_bind, hg, hget]
    rw [ih (i + 1) _ _ (by omega), hdrop]
    simp only [List.map_cons, List.append_assoc, List.singleton_append, truncName,
      HDF5_MAXSTRLEN]
    rfl

theorem dataset_list_run (h : Int) (g : String) (s : Engine) :
    dataset_list h g s =
      match s.childrenOf h g with
      | some ns => (.ok (ns.map truncName), { s with nextId := s.nextId + 1 })
      | none => (.error (.assertion 216), s) := by
  unfold Engine.childrenOf
  cases hl : s.lookupObj h g with
  | none => simp [dataset_list, H5Gopen, M.call_bind, M.assert_bind, hl, HDF5_FAIL]
  | some t =>
    obtain ⟨f, p, o⟩ := t
    cases o with
    | dataset d => simp [dataset_list, H5Gopen, M.call_bind, M.assert_bind, hl, HDF5_FAIL]
    | group =>
      obtain ⟨c, hc, _⟩ := lookupObj_some s h g f p .group hl
      have hg : (s.alloc (.group f p)).2.groupMembers (s.nextId : Int) =
          some (c.childNames p) := by
        simp [Engine.groupMembers, alloc_handles, alloc_files, assoc, hc]
      have hloop := dataset_list_loop_run (s.nextId : Int) _ _ hg
        (c.childNames p).length 0 [] [] (by simp)
      simp only [dataset_list, H5Gopen, H5Gget_num_objs, M.call_bind, M.read_bind,
        M.assert_bind, hl, hc, hg, HDF5_FAIL, alloc_fst, id_ne_fail]
      rw [M.bind_run, hloop]
      simp [H5Gclose, M.call_bind, M.assert_bind, alloc_handles, assoc, M.pure_run,
        Engine.release, Engine.alloc, unbind, HDF5_FAIL]

theorem dataset_list_file_open_error (HAS_MPI : Bool) (filename g : String) (use_mpi_io : Bool)
    (s s1 : Engine) (e : Err)
    (hopen : open_file HAS_MPI filename false use_mpi_io s = (.error e, s1)) :
    dataset_list_file HAS_MPI filename g use_mpi_io s = (.error e, s1) := by
  unfold dataset_list_file
  rw [M.bind_run, hopen]

theorem dataset_list_file_run (HAS_MPI : Bool) (filename g : String) (use_mpi_io : Bool)
    (s s1 : Engine) (h : Int)
    (hopen : open_file HAS_MPI filename false use_mpi_io s = (.ok h, s1))
    (hfile : assoc h s1.handles = some (.file filename)) :
    dataset_list_file HAS_MPI filename g use_mpi_io s =
      match s1.childrenOf h g with
      | some ns => (.ok (ns.map truncName),
          { s1 with handles := unbind h s1.handles, nextId := s1.nextId + 1 })
      | none => (.error (.assertion 252), s1) := by
  unfold dataset_list_file
  rw [M.bind_run, hopen]
  unfold Engine.childrenOf
  cases hl : s1.lookupObj h g with
  | none => simp [H5Gopen, M.call_bind, M.assert_bind, hl, HDF5_FAIL]
  | some t =>
    obtain ⟨f, p, o⟩ := t
    cases o with
    | dataset d => simp [H5Gopen, M.call_bind, M.assert_bind, hl, HDF5_FAIL]
    | group =>
      obtain ⟨c, hc, _⟩ := lookupObj_some s1 h g f p .group hl
      have hg : (s1.alloc (.group f p)).2.groupMembers (s1.nextId : Int) =
          some (c.childNames p) := by
        simp [Engine.groupMembers, alloc_handles, alloc_files, assoc, hc]
      have hloop := dataset_list_loop_run (s1.nextId : Int) _ _ hg
        (c.childNames p).length 0 [] [] (by simp)
      simp only [H5Gopen, H5Gget_num_objs, M.call_bind, M.read_bind,
        M.assert_bind, hl, hc, hg, HDF5_FAIL, alloc_fst, id_ne_fail]
      rw [M.bind_run, hloop]
      simp [H5Gclose, H5Fclose, M.call_bind, M.assert_bind, alloc_handles, assoc, M.pure_run,
        Engine.release, Engine.alloc, unbind, HDF5_FAIL, hfile]

theorem not_mpi_ok (HAS_MPI use_mpi_io : Bool) (hm : ¬ (use_mpi_io = false ∨ HAS_MPI = true)) :
    use_mpi_io = true ∧ HAS_MPI = false := by
  cases use_mpi_io <;> cases HAS_MPI <;> simp at hm ⊢

/-- A successful run of the file-name overload: the file was opened, the group
resolved, and the state differs from the initial one in the identifier counter only. -/
theorem dataset_list_file_ok (HAS_MPI : Bool) (filename g : String) (use_mpi_io : Bool)
    (s s2 : Engine) (l : List String)
    (hrun : dataset_list_file HAS_MPI filename g use_mpi_io s = (.ok l, s2)) :
    open_file HAS_MPI filename false use_mpi_io s =
      (.ok ((s.nextId : Int) + 1), afterOpen s filename) ∧
    (∃ ns, (afterOpen s filename).childrenOf ((s.nextId : Int) + 1) g = some ns ∧
      l = ns.map truncName) ∧
    s2 = { s with nextId := s.nextId + 3 } := by
  by_cases hm : use_mpi_io = false ∨ HAS_MPI = true
  · cases hc : assoc filename s.files with
    | none =>
      rw [dataset_list_file_open_error _ _ _ _ _ _ _
        (open_file_missing HAS_MPI filename use_mpi_io s hm hc)] at hrun
      simp at hrun
    | some c =>
      have hopen := open_file_open HAS_MPI filename use_mpi_io s hm c hc
      have hfile : assoc ((s.nextId : Int) + 1) (afterOpen s filename).handles =
          some (.file filename) := by simp [afterOpen, assoc]
      rw [dataset_list_file_run _ _ _ _ _ _ _ hopen hfile] at hrun
      refine ⟨hopen, ?_⟩
      cases hch : (afterOpen s filename).childrenOf ((s.nextId : Int) + 1) g with
      | none => simp [hch] at hrun
      | some ns =>
        simp only [hch, Prod.mk.injEq, Except.ok.injEq] at hrun
        refine ⟨⟨ns, rfl, hrun.1.symm⟩, ?_⟩
        rw [← hrun.2]
        simp [afterOpen, unbind]
  · obtain ⟨rfl, rfl⟩ := not_mpi_ok _ _ hm
    rw [dataset_list_file_open_error _ _ _ _ _ _ _ (open_file_noMPI filename false s)] at hrun
    simp at hrun

/-- C8: whenever the file-name overload of `dataset_list` succeeds, it returns the
list that the identifier overload returns on the identifier `open_file` yields for
the same file (without truncation), it agrees with the open / list / close
composition, and it leaves the files and the table of open identifiers as they were
before the call. -/
theorem dataset_list_file_refines (HAS_MPI : Bool) (filename g : String) (use_mpi_io : Bool)
    (s s2 : Engine) (l : List String)
    (hrun : dataset_list_file HAS_MPI filename g use_mpi_io s = (.ok l, s2)) :
    (∃ h s1 s3, open_file HAS_MPI filename false use_mpi_io s = (.ok h, s1) ∧
      dataset_list h g s1 = (.ok l, s3)) ∧
    dataset_list_open_close HAS_MPI filename g use_mpi_io s = (.ok l, s2) ∧
    s2.files = s.files ∧ s2.handles = s.handles := by
  obtain ⟨hopen, ⟨ns, hch, rfl⟩, rfl⟩ :=
    dataset_list_file_ok HAS_MPI filename g use_mpi_io s s2 l hrun
  have hlist := dataset_list_run ((s.nextId : Int) + 1) g (afterOpen s filename)
  rw [hch] at hlist
  refine ⟨⟨_, _, _, hopen, hlist⟩, ?_, rfl, rfl⟩
  unfold dataset_list_open_close
  rw [M.bind_run, hopen]
  simp only []
  rw [M.bind_run, hlist]
  simp [H5Fclose, M.call_bind, M.assert_bind, M.pure_run, afterOpen, assoc, Engine.release,
    unbind, HDF5_FAIL]

/-- C8 at the group `/g` of the sample file. -/
theorem dataset_list_file_refines_witness :
    (∃ h s1 s3, open_file false "f.h5" false false sampleDisk = (.ok h, s1) ∧
      dataset_list h "/g" s1 = (.ok ["x", "y"], s3)) ∧
    dataset_list_open_close false "f.h5" "/g" false sampleDisk =
      (.ok ["x", "y"], { sampleDisk with nextId := 4 }) ∧
    ({ sampleDisk with nextId := 4 } : Engine).files = sampleDisk.files ∧
    ({ sampleDisk with nextId := 4 } : Engine).handles = sampleDisk.handles :=
  dataset_list_file_refines false "f.h5" "/g" false sampleDisk _ ["x", "y"] rfl

theorem truncName_length (n : String) : (truncName n).length ≤ 79 := by
  simp only [truncName, HDF5_MAXSTRLEN, String.length, List.length_take]
  omega

/-- C10: both overloads of `dataset_list` report every child of the group by the
first 79 bytes of its name, so every reported string has length at most 79 (and
children whose names agree on their first 79 bytes are reported by equal strings). -/
theorem dataset_list_names_truncated (HAS_MPI : Bool) (filename g gf : String)
    (use_mpi_io : Bool) (h : Int) (s s2 t t2 : Engine) (l lf : List String)
    (hh : dataset_list h g s = (.ok l, s2))
    (hf : dataset_list_file HAS_MPI filename gf use_mpi_io t = (.ok lf, t2)) :
    (∃ ns, s.childrenOf h g = some ns ∧
      l = ns.map (fun n => String.mk (n.data.take 79))) ∧
    (∀ n ∈ l, n.length ≤ 79) ∧
    (∃ hf1 t1 ns, open_file HAS_MPI filename false use_mpi_io t = (.ok hf1, t1) ∧
      t1.childrenOf hf1 gf = some ns ∧
      lf = ns.map (fun n => String.mk (n.data.take 79))) ∧
    (∀ n ∈ lf, n.length ≤ 79) := by
  have hlen : ∀ (ns : List String), ∀ n ∈ ns.map truncName, n.length ≤ 79 := by
    intro ns n hn
    obtain ⟨m, _, rfl⟩ := List.mem_map.mp hn
    exact truncName_length m
  rw [dataset_list_run] at hh
  obtain ⟨hopen, ⟨nsf, hchf, rfl⟩, _⟩ :=
    dataset_list_file_ok HAS_MPI filename gf use_mpi_io t t2 lf hf
  cases hch : s.childrenOf h g with
  | none => simp [hch] at hh
  | some ns =>
    simp only [hch, Prod.mk.injEq, Except.ok.injEq] at hh
    obtain ⟨rfl, _⟩ := hh
    exact ⟨⟨ns, rfl, rfl⟩, hlen ns, ⟨_, _, nsf, hopen, hchf, rfl⟩, hlen nsf⟩

/-- C10 at a group whose two children have 80-byte names with a common 79-byte start. -/
theorem dataset_list_names_truncated_witness :
    (∃ ns, longNamesEngine.childrenOf 2 "/g" = some ns ∧
      [String.mk (List.replicate 79 'a'), String.mk (List.replicate 79 'a')] =
        ns.map (fun n => String.mk (n.data.take 79))) ∧
    (∀ n ∈ [String.mk (List.replicate 79 'a'), String.mk (List.replicate 79 'a')],
      n.length ≤ 79) ∧
    (∃ hf1 t1 ns, open_file false "f.h5" false false longNamesDisk = (.ok hf1, t1) ∧
      t1.childrenOf hf1 "/g" = some ns ∧
      [String.mk (List.replicate 79 'a'), String.mk (List.replicate 79 'a')] =
        ns.map (fun n => String.mk (n.data.take 79))) ∧
    (∀ n ∈ [String.mk (List.replicate 79 'a'), String.mk (List.replicate 79 'a')],
      n.length ≤ 79) :=
  dataset_list_names_truncated false "f.h5" "/g" "/g" false 2 longNamesEngine
    { longNamesEngine with nextId := 4 } longNamesDisk { longNamesDisk with nextId := 4 }
    _ _ rfl rfl

/-! ## Names and count of the children of a group -/

theorem add_group_found (h : Int) (P : String) (s : Engine)
    (hf : (s.lookupObj h P).isSome = true) :
    add_group h P s = (.ok (), { s with errAuto := ⟨0, 0⟩ }) := by
  simp [add_group, M.bind_run, has_group_run, hf, M.pure_run]

theorem add_group_absent (h : Int) (P : String) (s : Engine)
    (hn : s.lookupObj h P = none) :
    add_group h P s =
      (do
        let group_id_vis ← H5Gcreate h P
        dolfin_assert (group_id_vis ≠ HDF5_FAIL) 102
        let status ← H5Gclose group_id_vis
        dolfin_assert (status ≠ HDF5_FAIL) 105 : M Unit) { s with errAuto := ⟨0, 0⟩ } := by
  simp [add_group, M.bind_run, has_group_run, hn, M.pure_run]

theorem assoc_rebind {κ β : Type} [DecidableEq κ] (k : κ) (v w : β) (l : List (κ × β))
    (h : assoc k l = some w) : assoc k (rebind k v l) = some v := by
  induction l with
  | nil => simp [assoc] at h
  | cons e es ih =>
    simp only [assoc] at h
    by_cases hk : e.1 = k
    · simp [rebind, assoc, hk]
    · simp only [hk, if_false] at h
      simp [rebind, assoc, hk, ih h]

theorem assoc_append_some {κ β : Type} [DecidableEq κ] (k : κ) (v : β) (l l2 : List (κ × β))
    (h : assoc k l = some v) : assoc k (l ++ l2) = some v := by
  induction l with
  | nil => simp [assoc] at h
  | cons e es ih =>
    simp only [assoc] at h
    by_cases hk : e.1 = k
    · simp only [hk, if_true] at h
      simp [assoc, hk, h]
    · simp only [hk, if_false] at h
      simp [assoc, hk, ih h]

theorem assoc_append_none {κ β : Type} [DecidableEq κ] (k : κ) (l l2 : List (κ × β))
    (h : assoc k l = none) : assoc k (l ++ l2) = assoc k l2 := by
  induction l with
  | nil => rfl
  | cons e es ih =>
    simp only [assoc] at h
    by_cases hk : e.1 = k
    · simp [hk] at h
    · simp only [hk, if_false] at h
      simp [assoc, hk, ih h]

theorem assoc_none_filter {κ β : Type} [DecidableEq κ] (k : κ) (l : List (κ × β))
    (h : assoc k l = none) : l.filter (fun e => e.1 = k) = [] := by
  induction l with
  | nil => rfl
  | cons e es ih =>
    simp only [assoc] at h
    by_cases hk : e.1 = k
    · simp [hk] at h
    · simp only [hk, if_false] at h
      simp [List.filter, hk, ih h]

/-- Appending links keeps every path that resolved resolving to the same object. -/
theorem resolveFrom_append (c : Container) (extra : List (List String × Obj)) :
    ∀ (q : List String) (cur : Obj) (pre : List String) (o : Obj),
      c.resolveFrom cur pre q = some o →
      Container.resolveFrom ⟨c.links ++ extra⟩ cur pre q = some o := by
  intro q
  induction q with
  | nil =>
    intro cur pre o h
    simpa [Container.resolveFrom] using h
  | cons x xs ih =>
    intro cur pre o h
    cases cur with
    | dataset d => simp [Container.resolveFrom] at h
    | group =>
      simp only [Container.resolveFrom] at h ⊢
      cases hl : c.link? (pre ++ [x]) with
      | none => simp [hl] at h
      | some o1 =>
        have hl2 : Container.link? ⟨c.links ++ extra⟩ (pre ++ [x]) = some o1 :=
          assoc_append_some _ _ _ _ hl
        simp only [hl] at h
        simp only [hl2]
        exact ih o1 (pre ++ [x]) o h

/-- Resolving a path extended by one component. -/
theorem resolveFrom_snoc (c : Container) (x : String) :
    ∀ (q : List String) (cur : Obj) (pre : List String),
      c.resolveFrom cur pre q = some .group →
      c.resolveFrom cur pre (q ++ [x]) = c.link? (pre ++ q ++ [x]) := by
  intro q
  induction q with
  | nil =>
    intro cur pre h
    simp only [Container.resolveFrom, Option.some.injEq] at h
    subst h
    simp only [List.nil_append, Container.resolveFrom, List.append_nil]
    cases c.link? (pre ++ [x]) <;> rfl
  | cons y ys ih =>
    intro cur pre h
    cases cur with
    | dataset d => simp [Container.resolveFrom] at h
    | group =>
      simp only [Container.resolveFrom, List.cons_append] at h ⊢
      cases hl : c.link? (pre ++ [y]) with
      | none => simp [hl] at h
      | some o1 =>
        simp only [hl] at h
        simp only [hl]
        have hih := ih o1 (pre ++ [y]) h
        simp only [List.append_assoc, List.singleton_append] at hih ⊢
        exact hih

theorem resolve_new_group (c : Container) (p : List String) (hp : p ≠ [])
    (hparent : c.resolve p.dropLast = some .group) (hnew : c.link? p = none) :
    Container.resolve ⟨c.links ++ [(p, Obj.group)]⟩ p = some .group := by
  have hsplit : p.dropLast ++ [p.getLast hp] = p := List.dropLast_append_getLast hp
  have h1 := resolveFrom_append c [(p, Obj.group)] p.dropLast .group [] .group hparent
  have h2 := resolveFrom_snoc ⟨c.links ++ [(p, Obj.group)]⟩ (p.getLast hp) p.dropLast .group [] h1
  simp only [List.nil_append, hsplit] at h2
  rw [Container.resolve, h2, Container.link?, assoc_append_none _ _ _ hnew]
  simp [assoc]

/-- What a successful creating run of `add_group` does. -/
theorem add_group_creates (h : Int) (P : String) (s s1 : Engine)
    (hn : s.lookupObj h P = none) (hrun : add_group h P s = (.ok (), s1)) :
    ∃ f p c, s.locate h P = some (f, p) ∧ assoc f s.files = some c ∧ p ≠ [] ∧
      c.resolve p.dropLast = some .group ∧ c.link? p = none ∧
      s1 = afterGroupCreated s f c p := by
  rw [add_group_absent h P s hn] at hrun
  have hloc : Engine.locate { s with errAuto := ⟨0, 0⟩ } h P = s.locate h P := rfl
  cases hlc : s.locate h P with
  | none =>
    simp [H5Gcreate, M.call_bind, M.assert_bind, hloc, hlc, HDF5_FAIL] at hrun
  | some fp =>
    obtain ⟨f, p⟩ := fp
    cases hc : assoc f s.files with
    | none =>
      simp [H5Gcreate, M.call_bind, M.assert_bind, hloc, hlc, hc, HDF5_FAIL] at hrun
    | some c =>
      by_cases hp : p = []
      · simp [H5Gcreate, M.call_bind, M.assert_bind, hloc, hlc, hc, hp, HDF5_FAIL] at hrun
      · cases hpar : c.resolve p.dropLast with
        | none =>
          simp [H5Gcreate, M.call_bind, M.assert_bind, hloc, hlc, hc, hp, hpar, HDF5_FAIL]
            at hrun
        | some o =>
          cases o with
          | dataset d =>
            simp [H5Gcreate, M.call_bind, M.assert_bind, hloc, hlc, hc, hp, hpar, HDF5_FAIL]
              at hrun
          | group =>
            cases hlk : c.link? p with
            | some o2 =>
              simp [H5Gcreate, M.call_bind, M.assert_bind, hloc, hlc, hc, hp, hpar, hlk,
                HDF5_FAIL] at hrun
            | none =>
              refine ⟨f, p, c, rfl, hc, hp, hpar, hlk, ?_⟩
              simp [H5Gcreate, H5Gclose, M.call_bind, M.assert_bind, M.assert_run, hloc, hlc,
                hc, hp, hpar, hlk, HDF5_FAIL, Engine.alloc, Engine.release, assoc, unbind,
                id_ne_fail] at hrun
              rw [← hrun]
              rfl

/-- C1 fails as stated: on a path that names a dataset, `add_group` succeeds twice
without creating anything, and the object at the path is the dataset, not a group. -/
theorem add_group_on_dataset_counterexample :
    add_group 2 "/d" sampleEngine = (.ok (), { sampleEngine with errAuto := ⟨0, 0⟩ }) ∧
    add_group 2 "/d" { sampleEngine with errAuto := ⟨0, 0⟩ } =
      (.ok (), { sampleEngine with errAuto := ⟨0, 0⟩ }) ∧
    Engine.lookupObj { sampleEngine with errAuto := ⟨0, 0⟩ } 2 "/d" =
      some ("f.h5", ["d"], .dataset [2, 5]) :=
  ⟨rfl, rfl, rfl⟩

/-- C1 (amended): when a first `add_group h P` succeeds, a second one raises no error
and leaves the whole engine state as it was after the first.  After the first call
`P` resolves to an object: if `P` did not resolve before, that object is a group
under exactly one link; if `P` resolved before (to a group or to a dataset), it is
the same object and the files are unchanged. -/
theorem add_group_idempotent (h : Int) (P : String) (s s1 : Engine)
    (hrun : add_group h P s = (.ok (), s1)) :
    add_group h P s1 = (.ok (), s1) ∧
    ∃ f p o, s1.lookupObj h P = some (f, p, o) ∧
      (s.lookupObj h P = none → o = .group ∧
        ∃ c1, assoc f s1.files = some c1 ∧
          (c1.links.filter (fun e => e.1 = p)).length = 1) ∧
      (∀ x, s.lookupObj h P = some x → x = (f, p, o) ∧ s1.files = s.files) := by
  cases hl : s.lookupObj h P with
  | none =>
    obtain ⟨f, p, c, hloc, hc, hp, hpar, hlk, rfl⟩ := add_group_creates h P s s1 hl hrun
    have hloc2 : (afterGroupCreated s f c p).locate h P = some (f, p) := hloc
    have hfile : assoc f (afterGroupCreated s f c p).files =
        some ⟨c.links ++ [(p, Obj.group)]⟩ := assoc_rebind f _ c s.files hc
    have hlook : (afterGroupCreated s f c p).lookupObj h P = some (f, p, .group) := by
      simp [Engine.lookupObj, hloc2, hfile, resolve_new_group c p hp hpar hlk]
    refine ⟨?_, f, p, .group, hlook, ?_, ?_⟩
    · rw [add_group_found h P _ (by rw [hlook]; rfl)]
      rfl
    · intro _
      refine ⟨rfl, _, hfile, ?_⟩
      simp [List.filter_append, assoc_none_filter p c.links hlk, List.filter]
    · intro x hx
      cases hx
  | some x =>
    have hfound : (s.lookupObj h P).isSome = true := by rw [hl]; rfl
    rw [add_group_found h P s hfound] at hrun
    simp only [Prod.mk.injEq, true_and] at hrun
    subst hrun
    obtain ⟨f, p, o⟩ := x
    refine ⟨?_, f, p, o, hl, ?_, ?_⟩
    · exact add_group_found h P { s with errAuto := ⟨0, 0⟩ } hfound
    · intro hx
      cases hx
    · intro x hx
      simp only [Option.some.injEq] at hx
      exact ⟨hx.symm, rfl⟩

/-- The amended C1 at a path that does not exist yet. -/
theorem add_group_idempotent_witness :
    add_group 2 "/new" (afterGroupCreated sampleEngine "f.h5" sampleContainer ["new"]) =
      (.ok (), afterGroupCreated sampleEngine "f.h5" sampleContainer ["new"]) ∧
    ∃ f p o,
      (afterGroupCreated sampleEngine "f.h5" sampleContainer ["new"]).lookupObj 2 "/new" =
        some (f, p, o) ∧
      (sampleEngine.lookupObj 2 "/new" = none → o = .group ∧
        ∃ c1, assoc f (afterGroupCreated sampleEngine "f.h5" sampleContainer ["new"]).files =
            some c1 ∧
          (c1.links.filter (fun e => e.1 = p)).length = 1) ∧
      (∀ x, sampleEngine.lookupObj 2 "/new" = some x → x = (f, p, o) ∧
        (afterGroupCreated sampleEngine "f.h5" sampleContainer ["new"]).files =
          sampleEngine.files) :=
  add_group_idempotent 2 "/new" sampleEngine _ rfl

/-! ## Error reporting around `dataset_exists` -/

/-- The probe `dataset_exists` leaves the error-reporting setting as it found it, on
every path. -/
theorem dataset_exists_restores_reporting (HAS_MPI : Bool) (filename d : String)
    (use_mpi_io : Bool) (s : Engine) :
    (dataset_exists HAS_MPI filename d use_mpi_io s).2.errAuto = s.errAuto := by
  have e1 : ((s.nextId : Int) + 2 = -1) = False := by
    simp only [eq_iff_iff, iff_false]; omega
  have e2 : ((s.nextId : Int) + 2 = (s.nextId : Int) + 1) = False := by
    simp only [eq_iff_iff, iff_false]; omega
  have e3 : ((s.nextId : Int) + 1 = (s.nextId : Int) + 2) = False := by
    simp only [eq_iff_iff, iff_false]; omega
  unfold dataset_exists
  rw [M.bind_run]
  by_cases hm : use_mpi_io = false ∨ HAS_MPI = true
  · cases hc : assoc filename s.files with
    | none => rw [open_file_missing HAS_MPI filename use_mpi_io s hm hc]; rfl
    | some c =>
      rw [open_file_open HAS_MPI filename use_mpi_io s hm c hc]
      simp only [afterOpen, H5Eget_auto, H5Eset_auto, H5Dopen, M.read_bind, M.call_bind,
        M.assert_bind, HDF5_FAIL]
      cases hd : Engine.lookupObj
          { files := s.files, handles := ((s.nextId : Int) + 1, .file filename) :: s.handles,
            nextId := s.nextId + 2, errAuto := ⟨0, 0⟩ } ((s.nextId : Int) + 1) d with
      | none =>
        simp [M.bind_run, M.pure_run, H5Fclose, M.call, M.assert_run, assoc,
          Engine.release, HDF5_FAIL]
      | some x =>
        obtain ⟨f, p, o⟩ := x
        cases o <;>
        simp [M.bind_run, M.pure_run, H5Fclose, H5Dclose, M.call, M.assert_run, assoc,
          Engine.release, HDF5_FAIL, Engine.alloc, unbind, id_ne_fail, id_succ_ne_fail,
          id_succ_ne, id_ne_succ, e1, e2, e3, M.call_bind, M.assert_bind]
  · obtain ⟨rfl, rfl⟩ := not_mpi_ok _ _ hm
    rw [open_file_noMPI]
    rfl

end HDF5Interface
